import Mathlib

/-!
Verification development for the RAG-MCQ-Generator repository.

The repository bundles two historical versions of the rule-based question
generator class:
  - version 1: the class in src/src/utils/aiQuestionGenerator.ts
    (difficulty-bucket balancing, chunk windows of 5 with stride 3),
  - version 2: the revised class bundled in src/src/components/Results.tsx
    (per-chunk quotas, filler padding to the exact requested count,
    chunk windows of 4 with stride 2).
Both are embedded below, in namespaces GenV1 and GenV2.  The shared
text-analysis helpers (identical in both versions) are embedded once at top
level.  The quiz session logic embeds src/src/App.tsx together with the
mode-aware QuestionDisplay component (src/unnamed/part_004).

JavaScript strings are modelled as Lean strings over their character lists;
the regular expressions used by the source are small fixed word-list and
capitalized-phrase patterns, embedded as executable scanners below.
Math.random() is modelled by ambient streams of natural numbers: each draw
site reads a distinct index of the stream and reduces it modulo the pool
size, which covers exactly the values Math.floor(Math.random() * n) can take.
-/

/-- Characters treated as sentence terminators by the split pattern on
periods, exclamation and question marks used throughout the source. -/
def isTerminator (c : Char) : Bool :=
  c = '.' || c = '!' || c = '?'

mutual

/-- Field accumulator for the JavaScript split on runs of sentence
terminators: collects characters of the current field. -/
def splitTermField : List Char → List Char → List String
  | [], acc => [String.mk acc.reverse]
  | c :: rest, acc =>
    if isTerminator c then String.mk acc.reverse :: splitTermSkip rest
    else splitTermField rest (c :: acc)

/-- Run skipper for the split: consumes the remainder of a terminator run,
then starts the next field (an empty trailing field when input ends). -/
def splitTermSkip : List Char → List String
  | [] => [String.mk []]
  | c :: rest =>
    if isTerminator c then splitTermSkip rest
    else splitTermField rest [c]

end

/-- Embedding of the JavaScript text.split on one-or-more sentence
terminators, including the empty leading and trailing fields it produces. -/
def splitSentences (s : String) : List String :=
  splitTermField s.data []

/-- Embedding of the JavaScript string trim: strips leading and trailing
whitespace characters. -/
def jsTrim (s : String) : String :=
  String.mk (((s.data.dropWhile Char.isWhitespace).reverse.dropWhile
    Char.isWhitespace).reverse)

/-- Length of a JavaScript string, as number of characters. -/
def jsLen (s : String) : Nat :=
  s.data.length

/-- Embedding of the JavaScript substring from index zero: the first n
characters of the string. -/
def jsTake (s : String) (n : Nat) : String :=
  String.mk (s.data.take n)

/-- Lower-cases a string character by character, as the JavaScript
toLowerCase does on ASCII input. -/
def jsToLower (s : String) : String :=
  String.mk (s.data.map Char.toLower)

/-- Word-constituent characters of JavaScript regular expressions: ASCII
letters, digits and the underscore. -/
def isWordChar (c : Char) : Bool :=
  c.isAlpha || c.isDigit || c = '_'

/-- Maximal runs of word characters in a string, in order.  A word-boundary
match of an all-letter word in a JavaScript regex is exactly an occurrence
of that word as such a maximal run. -/
def wordTokensAux : List Char → List Char → List String
  | [], acc => if acc.isEmpty then [] else [String.mk acc.reverse]
  | c :: rest, acc =>
    if isWordChar c then wordTokensAux rest (c :: acc)
    else if acc.isEmpty then wordTokensAux rest []
    else String.mk acc.reverse :: wordTokensAux rest []

/-- Maximal word-character tokens of a string. -/
def wordTokens (s : String) : List String :=
  wordTokensAux s.data []

/-- Matches of a case-insensitive word-boundary alternation of the given
all-letter words, in text order, as the matched substrings (original case),
mirroring text.match with such a pattern and the global and ignore-case
flags. -/
def wordMatchesCI (words : List String) (text : String) : List String :=
  (wordTokens text).filter (fun t => words.contains (jsToLower t))

/-- Number of matches of a case-insensitive word-boundary alternation of the
given words in the text. -/
def countWordMatches (words : List String) (text : String) : Nat :=
  (wordMatchesCI words text).length

/-- Decides whether a list is an infix of another (substring containment on
character lists, as the JavaScript includes). -/
def infixOfB (needle hay : List Char) : Bool :=
  match hay with
  | [] => needle.isEmpty
  | _ :: rest => needle.isPrefixOf hay || infixOfB needle rest

/-- Embedding of the JavaScript includes on strings. -/
def jsIncludes (hay needle : String) : Bool :=
  infixOfB needle.data hay.data

/-- First-seen-order deduplication, as iterating a JavaScript Set. -/
def dedupFirst (xs : List String) : List String :=
  xs.foldl (fun acc x => if acc.contains x then acc else acc ++ [x]) []

/-- Difficulty labels of the Question type in src/src/types/index.ts. -/
inductive Difficulty
  | easy
  | medium
  | hard
deriving DecidableEq

/-- Embedding of the Question interface of src/src/types/index.ts.  The
explanation and difficulty fields are optional there. -/
structure Question where
  id : Nat
  question : String
  options : List String
  correctAnswer : Nat
  explanation : Option String
  difficulty : Option Difficulty
deriving DecidableEq

/-- Per-chunk analysis record produced by analyzeChunks in both generator
versions. -/
structure AnalyzedChunk where
  content : String
  keyTerms : List String
  concepts : List String
  facts : List String
  difficulty : Difficulty
deriving DecidableEq

/-- Fixed vocabulary of concept indicator words in extractConcepts. -/
def conceptWords : List String :=
  ["concept", "principle", "theory", "method", "approach", "strategy",
   "technique"]

/-- Copular and stative verbs recognised by extractFacts. -/
def copularWords : List String :=
  ["is", "are", "was", "were", "has", "have", "contains", "shows",
   "indicates", "demonstrates"]

/-- Discourse connectives of the first complexity-indicator pattern in
assessDifficulty. -/
def connectiveWords : List String :=
  ["however", "nevertheless", "furthermore", "consequently", "therefore"]

/-- Analytical-register words of the second complexity-indicator pattern in
assessDifficulty. -/
def analyticalWords : List String :=
  ["analysis", "synthesis", "evaluation", "comparison", "contrast"]

/-- Inferential verbs of the third complexity-indicator pattern in
assessDifficulty. -/
def inferentialWords : List String :=
  ["implies", "suggests", "indicates", "demonstrates", "establishes"]

/-- Attempts the capitalized-phrase pattern at a position starting with an
upper-case letter: reads one capitalized word, an upper-case character
followed by one or more lower-case letters with the run maximal.  Returns
the word characters and the remaining input, or none when no lower-case
letter follows. -/
def capWordAt (c : Char) (rest : List Char) : Option (List Char × List Char) :=
  let lowers := rest.takeWhile Char.isLower
  if lowers.isEmpty then none
  else some (c :: lowers, rest.dropWhile Char.isLower)

/-- Greedily extends a capitalized-phrase match with further groups of
whitespace followed by a capitalized word, keeping track of the characters
consumed so far.  Returns the full list of greedy extension steps: for each
accepted group, the characters of the match up to and including that group
together with the rest of the input after it.  The fuel argument makes the
recursion structural; every step consumes at least two input characters
while fuel drops by one, so initializing fuel with the input length never
cuts the scan short. -/
def capExtensions : Nat → List Char → List Char → List (List Char × List Char)
  | 0, _, _ => []
  | fuel + 1, acc, input =>
    let ws := input.takeWhile Char.isWhitespace
    if ws.isEmpty then []
    else
      match input.dropWhile Char.isWhitespace with
      | [] => []
      | c :: rest =>
        if c.isUpper then
          match capWordAt c rest with
          | none => []
          | some (w, rest2) =>
            let acc2 := acc ++ ws ++ w
            (acc2, rest2) :: capExtensions fuel acc2 rest2
        else []

/-- End-of-match word boundary of the capitalized-phrase pattern: after the
final lower-case letter the next character must not be a word character. -/
def capBoundaryOk : List Char → Bool
  | [] => true
  | c :: _ => !isWordChar c

/-- Resolves greedy matching with backtracking for the capitalized-phrase
pattern: from the candidate match ends (first word alone, then each
extension in order), the regex engine keeps the longest candidate list
prefix and drops trailing groups until the end boundary holds; a first word
whose boundary fails yields no match at this position. -/
def capResolve (first : List Char × List Char)
    (exts : List (List Char × List Char)) : Option (List Char × List Char) :=
  match exts with
  | [] => if capBoundaryOk first.2 then some first else none
  | e :: rest =>
    match capResolve e rest with
    | some m => some m
    | none => if capBoundaryOk first.2 then some first else none

/-- Scanner for the global capitalized-phrase pattern: sequences of
capitalized words separated by whitespace, with word boundaries at both
ends.  The boolean argument records whether the previous character was a
word character (for the leading boundary).  Returns the matched substrings
in order, as the JavaScript match with the global flag.  The fuel argument
makes the recursion structural; every step consumes at least one input
character while fuel drops by one, so initializing fuel with the input
length never cuts the scan short. -/
def capMatchesAux : Nat → Bool → List Char → List String
  | 0, _, _ => []
  | _, _, [] => []
  | fuel + 1, prevWord, c :: rest =>
    if !prevWord && c.isUpper then
      match capWordAt c rest with
      | some (w, rest2) =>
        match capResolve (w, rest2) (capExtensions rest2.length w rest2) with
        | some (m, rest3) =>
          String.mk m :: capMatchesAux fuel true rest3
        | none => capMatchesAux fuel (isWordChar c) rest
      | none => capMatchesAux fuel (isWordChar c) rest
    else capMatchesAux fuel (isWordChar c) rest

/-- Matches of the capitalized-phrase pattern in a string, in order. -/
def capMatches (s : String) : List String :=
  capMatchesAux s.data.length false s.data

/-- Embedding of extractKeyTerms (identical in both generator versions):
capitalized-phrase matches, deduplicated first-seen, longer than three
characters, capped at five. -/
def extractKeyTerms (text : String) : List String :=
  ((dedupFirst (capMatches text)).filter (fun w => 3 < jsLen w)).take 5

/-- Embedding of extractConcepts (identical in both generator versions):
matches of the fixed concept vocabulary followed by capitalized-phrase
matches, deduplicated, capped at three. -/
def extractConcepts (text : String) : List String :=
  (dedupFirst (wordMatchesCI conceptWords text ++ capMatches text)).take 3

/-- Embedding of extractFacts (identical in both generator versions):
sentence fragments whose trimmed length exceeds thirty characters and that
contain a copular or stative verb, capped at three. -/
def extractFacts (text : String) : List String :=
  (((splitSentences text).filter (fun s => 30 < jsLen (jsTrim s))).filter
    (fun s => 0 < countWordMatches copularWords s)).take 3

/-- Total number of complexity-indicator matches counted by
assessDifficulty: discourse connectives, analytical-register words and
inferential verbs. -/
def complexityScore (text : String) : Nat :=
  countWordMatches connectiveWords text + countWordMatches analyticalWords text
    + countWordMatches inferentialWords text

/-- Embedding of assessDifficulty (identical in both generator versions):
a score of at least three is hard, at least one is medium, otherwise easy. -/
def assessDifficulty (text : String) : Difficulty :=
  if 3 ≤ complexityScore text then .hard
  else if 1 ≤ complexityScore text then .medium
  else .easy

/-- Embedding of analyzeChunks (identical in both generator versions). -/
def analyzeChunks (chunks : List String) : List AnalyzedChunk :=
  chunks.map (fun chunk =>
    { content := chunk
      keyTerms := extractKeyTerms chunk
      concepts := extractConcepts chunk
      facts := extractFacts chunk
      difficulty := assessDifficulty chunk })

/-- Joins strings with a separator, as the JavaScript Array join. -/
def jsJoin (sep : String) : List String → String
  | [] => ""
  | [s] => s
  | s :: rest => s ++ sep ++ jsJoin sep rest

/-- Embedding of generateConceptAnswer (identical in both generator
versions): the first sentence of the context containing the concept
case-insensitively, trimmed and cut at one hundred characters with an
ellipsis when the untrimmed sentence is longer; a fixed phrase otherwise. -/
def generateConceptAnswer (concept context : String) : String :=
  match (splitSentences context).find?
      (fun s => jsIncludes (jsToLower s) (jsToLower concept)) with
  | some relevantSentence =>
    jsTake (jsTrim relevantSentence) 100 ++
      (if 100 < jsLen relevantSentence then "..." else "")
  | none => "A key concept that is central to understanding the document\x27s main theme"

/-- Embedding of generateInferenceAnswer (identical in both generator
versions): a fixed phrase. -/
def generateInferenceAnswer (_context : String) : String :=
  "Based on the evidence presented, this represents a logical conclusion from the given information"

/-- Distractor categories of generateDistractor. -/
inductive DistractorType
  | concept
  | fact
  | inference
deriving DecidableEq

namespace GenV1

/-- Concept distractor pool of generateDistractor in the generator class of
src/src/utils/aiQuestionGenerator.ts. -/
def conceptDistractors : List String :=
  ["A concept that sounds related but is not mentioned in the document",
   "A general idea that doesn\x27t specifically relate to the content",
   "A misconception that might arise from superficial reading"]

/-- Fact distractor pool of the version-1 generateDistractor. -/
def factDistractors : List String :=
  ["A statement that sounds factual but contradicts the document",
   "Information that is partially correct but missing key details",
   "A fact from a different context that doesn\x27t apply here"]

/-- Inference distractor pool of the version-1 generateDistractor. -/
def inferenceDistractors : List String :=
  ["A conclusion that goes beyond what the evidence supports",
   "An assumption that isn\x27t backed by the provided information",
   "A logical fallacy that might seem reasonable but is incorrect"]

/-- Embedding of the version-1 generateDistractor: one uniformly random
entry of the pool for the category; the random draw is an arbitrary natural
reduced modulo the pool size. -/
def generateDistractor (t : DistractorType) (r : Nat) : String :=
  let options := match t with
    | .concept => conceptDistractors
    | .fact => factDistractors
    | .inference => inferenceDistractors
  options.getD (r % options.length) ""

/-- Window loop of the version-1 chunkDocument: windows of five sentences
advancing by three, joined with a period and space, trimmed, kept when
longer than one hundred characters. -/
def chunkLoop : List String → List String
  | [] => []
  | s :: rest =>
    let chunk := jsTrim (jsJoin ". " (s :: rest.take 4))
    (if 100 < jsLen chunk then [chunk] else []) ++ chunkLoop (rest.drop 2)
termination_by ss => ss.length
decreasing_by simp [List.length_drop]; omega

/-- Embedding of the version-1 chunkDocument: sentence fragments with
trimmed length over twenty characters, windowed by chunkLoop. -/
def chunkDocument (text : String) : List String :=
  chunkLoop ((splitSentences text).filter (fun s => 20 < jsLen (jsTrim s)))

/-- Concept question pushed by the version-1 generateQuestionsFromChunk for
the first concept of a chunk; the distractor draws for the question with
identifier k read stream indices 3k, 3k+1 and 3k+2. -/
def conceptQuestion (rd : Nat → Nat) (chunk : AnalyzedChunk)
    (concept : String) (k : Nat) : Question :=
  { id := k
    question := "According to the document, what is the main concept related to \"" ++ concept ++ "\"?"
    options := [generateConceptAnswer concept chunk.content,
                generateDistractor .concept (rd (3 * k)),
                generateDistractor .concept (rd (3 * k + 1)),
                generateDistractor .concept (rd (3 * k + 2))]
    correctAnswer := 0
    explanation := some ("This concept is explained in the document: \"" ++ jsTake chunk.content 150 ++ "...\"")
    difficulty := some chunk.difficulty }

/-- Fact question pushed by the version-1 generateQuestionsFromChunk for
the first fact of a chunk. -/
def factQuestion (rd : Nat → Nat) (chunk : AnalyzedChunk) (fact : String)
    (k : Nat) : Question :=
  { id := k
    question := "What does the document state about this topic?"
    options := [fact,
                generateDistractor .fact (rd (3 * k)),
                generateDistractor .fact (rd (3 * k + 1)),
                generateDistractor .fact (rd (3 * k + 2))]
    correctAnswer := 0
    explanation := some "This information is directly stated in the document."
    difficulty := some chunk.difficulty }

/-- Inference question pushed by the version-1 generateQuestionsFromChunk
for hard chunks. -/
def inferenceQuestion (rd : Nat → Nat) (chunk : AnalyzedChunk) (k : Nat) :
    Question :=
  { id := k
    question := "Based on the information provided, what can be inferred?"
    options := [generateInferenceAnswer chunk.content,
                generateDistractor .inference (rd (3 * k)),
                generateDistractor .inference (rd (3 * k + 1)),
                generateDistractor .inference (rd (3 * k + 2))]
    correctAnswer := 0
    explanation := some "This inference can be drawn from the context provided in the document."
    difficulty := some Difficulty.hard }

/-- Embedding of the version-1 generateQuestionsFromChunk: an optional
concept question, an optional fact question while fewer than two questions
exist, and an optional inference question for hard chunks while fewer than
three exist. -/
def generateQuestionsFromChunk (rd : Nat → Nat) (chunk : AnalyzedChunk)
    (startId : Nat) : List Question :=
  let qs0 : List Question := []
  let qs1 : List Question :=
    match chunk.concepts with
    | [] => qs0
    | concept :: _ => qs0 ++ [conceptQuestion rd chunk concept startId]
  let qs2 : List Question :=
    match chunk.facts with
    | [] => qs1
    | fact :: _ =>
      if qs1.length < 2 then
        qs1 ++ [factQuestion rd chunk fact (startId + qs1.length)]
      else qs1
  let qs3 : List Question :=
    if decide (chunk.difficulty = Difficulty.hard) && decide (qs2.length < 3) then
      qs2 ++ [inferenceQuestion rd chunk (startId + qs2.length)]
    else qs2
  qs3

/-- Chunk loop of the version-1 generateFromChunks: processes chunks in
order, stopping before a chunk when at least questionCount questions
already exist; the accumulated length and the next question identifier are
threaded through. -/
def genLoopAux (rd : Nat → Nat) :
    List AnalyzedChunk → Nat → Nat → Nat → List Question
  | [], _, _, _ => []
  | c :: rest, questionCount, len, qid =>
    if len < questionCount then
      let cqs := generateQuestionsFromChunk rd c qid
      cqs ++ genLoopAux rd rest questionCount (len + cqs.length)
        (qid + cqs.length)
    else []

/-- Embedding of Math.floor(questionCount * 0.4) for the easy and medium
shares in the version-1 generateFromChunks; on the supported range the
double-precision product floors to the exact value. -/
def share40 (questionCount : Nat) : Nat :=
  questionCount * 2 / 5

/-- Embedding of the version-1 balanceQuestionDifficulty: per-difficulty
buckets in the order easy, medium, hard, each cut to its count. -/
def balanceQuestionDifficulty (questions : List Question)
    (easyCount mediumCount hardCount : Nat) : List Question :=
  (questions.filter (fun q => decide (q.difficulty = some .easy))).take easyCount
    ++ (questions.filter (fun q => decide (q.difficulty = some .medium))).take mediumCount
    ++ (questions.filter (fun q => decide (q.difficulty = some .hard))).take hardCount

/-- Embedding of the version-1 generateFromChunks: the chunk loop followed
by difficulty balancing and a final cut to questionCount. -/
def generateFromChunks (rd : Nat → Nat) (analyzedChunks : List AnalyzedChunk)
    (questionCount : Nat) : List Question :=
  let easyCount := share40 questionCount
  let mediumCount := share40 questionCount
  let hardCount := questionCount - easyCount - mediumCount
  let questions := genLoopAux rd analyzedChunks questionCount 0 1
  (balanceQuestionDifficulty questions easyCount mediumCount hardCount).take
    questionCount

/-- Embedding of the version-1 generateWithLocalAI: chunking, analysis and
generation. -/
def generateWithLocalAI (rd : Nat → Nat) (text : String)
    (questionCount : Nat) : List Question :=
  generateFromChunks rd (analyzeChunks (chunkDocument text)) questionCount

end GenV1

namespace GenV2

/-- Concept distractor pool of generateDistractor in the revised generator
class bundled in src/src/components/Results.tsx. -/
def conceptDistractors : List String :=
  ["A concept that sounds related but is not mentioned in the document",
   "A general idea that doesn\x27t specifically relate to the content",
   "A misconception that might arise from superficial reading",
   "An unrelated concept from a different field"]

/-- Fact distractor pool of the version-2 generateDistractor. -/
def factDistractors : List String :=
  ["A statement that sounds factual but contradicts the document",
   "Information that is partially correct but missing key details",
   "A fact from a different context that doesn\x27t apply here",
   "A common misconception about the topic"]

/-- Inference distractor pool of the version-2 generateDistractor. -/
def inferenceDistractors : List String :=
  ["A conclusion that goes beyond what the evidence supports",
   "An assumption that isn\x27t backed by the provided information",
   "A logical fallacy that might seem reasonable but is incorrect",
   "An overgeneralization not supported by the text"]

/-- Embedding of the version-2 generateDistractor: one uniformly random
entry of the pool for the category; the random draw is an arbitrary natural
reduced modulo the pool size. -/
def generateDistractor (t : DistractorType) (r : Nat) : String :=
  let options := match t with
    | .concept => conceptDistractors
    | .fact => factDistractors
    | .inference => inferenceDistractors
  options.getD (r % options.length) ""

/-- Window loop of the version-2 chunkDocument: windows of four sentences
advancing by two, joined with a period and space, trimmed, kept when longer
than fifty characters. -/
def chunkLoop : List String → List String
  | [] => []
  | s :: rest =>
    let chunk := jsTrim (jsJoin ". " (s :: rest.take 3))
    (if 50 < jsLen chunk then [chunk] else []) ++ chunkLoop (rest.drop 1)
termination_by ss => ss.length
decreasing_by simp [List.length_drop]; omega

/-- Embedding of the version-2 chunkDocument: sentence fragments with
trimmed length over twenty characters, windowed by chunkLoop. -/
def chunkDocument (text : String) : List String :=
  chunkLoop ((splitSentences text).filter (fun s => 20 < jsLen (jsTrim s)))

/-- Concept question pushed by the version-2 generateQuestionsFromChunk for
the first concept of a chunk; the distractor draws for the question with
identifier k read stream indices 3k, 3k+1 and 3k+2. -/
def conceptQuestion (rd : Nat → Nat) (chunk : AnalyzedChunk)
    (concept : String) (k : Nat) : Question :=
  { id := k
    question := "According to the document, what is mentioned about \"" ++ concept ++ "\"?"
    options := [generateConceptAnswer concept chunk.content,
                generateDistractor .concept (rd (3 * k)),
                generateDistractor .concept (rd (3 * k + 1)),
                generateDistractor .concept (rd (3 * k + 2))]
    correctAnswer := 0
    explanation := some ("This concept is explained in the document: \"" ++ jsTake chunk.content 150 ++ "...\"")
    difficulty := some chunk.difficulty }

/-- Fact question pushed by the version-2 generateQuestionsFromChunk for
the first fact of a chunk, cut at eighty characters. -/
def factQuestion (rd : Nat → Nat) (chunk : AnalyzedChunk) (fact : String)
    (k : Nat) : Question :=
  { id := k
    question := "What does the document state about this topic?"
    options := [(if 80 < jsLen fact then jsTake fact 80 ++ "..." else fact),
                generateDistractor .fact (rd (3 * k)),
                generateDistractor .fact (rd (3 * k + 1)),
                generateDistractor .fact (rd (3 * k + 2))]
    correctAnswer := 0
    explanation := some "This information is directly stated in the document."
    difficulty := some chunk.difficulty }

/-- Key-term question pushed by the version-2 generateQuestionsFromChunk
for the first key term of a chunk. -/
def keyTermQuestion (chunk : AnalyzedChunk) (keyTerm : String) (k : Nat) :
    Question :=
  { id := k
    question := "In the context of the document, what is significant about \"" ++ keyTerm ++ "\"?"
    options := ["It is an important term mentioned in the document",
                "It is not mentioned in the document",
                "It contradicts the main theme",
                "It is only briefly referenced"]
    correctAnswer := 0
    explanation := some ("\"" ++ keyTerm ++ "\" is identified as a key term in the document content.")
    difficulty := some chunk.difficulty }

/-- Inference question pushed by the version-2 generateQuestionsFromChunk
for hard chunks. -/
def inferenceQuestion (rd : Nat → Nat) (chunk : AnalyzedChunk) (k : Nat) :
    Question :=
  { id := k
    question := "Based on the information provided, what can be inferred?"
    options := [generateInferenceAnswer chunk.content,
                generateDistractor .inference (rd (3 * k)),
                generateDistractor .inference (rd (3 * k + 1)),
                generateDistractor .inference (rd (3 * k + 2))]
    correctAnswer := 0
    explanation := some "This inference can be drawn from the context provided in the document."
    difficulty := some Difficulty.hard }

/-- Generic question pushed by the version-2 generateQuestionsFromChunk
while fewer than maxQuestions questions exist. -/
def genericQuestion (chunk : AnalyzedChunk) (k : Nat) : Question :=
  { id := k
    question := "What information is presented in this section of the document?"
    options := [(if 100 < jsLen chunk.content then jsTake chunk.content 100 ++ "..." else chunk.content),
                "Information not found in the document",
                "Contradictory information",
                "Unrelated content"]
    correctAnswer := 0
    explanation := some "This information is directly presented in the document."
    difficulty := some chunk.difficulty }

/-- Embedding of the version-2 generateQuestionsFromChunk: concept, fact,
key-term and inference questions, each pushed only while fewer than
maxQuestions questions exist, then generic questions until exactly
maxQuestions exist. -/
def generateQuestionsFromChunk (rd : Nat → Nat) (chunk : AnalyzedChunk)
    (startId maxQuestions : Nat) : List Question :=
  let qs0 : List Question := []
  let qs1 : List Question :=
    match chunk.concepts with
    | [] => qs0
    | concept :: _ =>
      if qs0.length < maxQuestions then
        qs0 ++ [conceptQuestion rd chunk concept (startId + qs0.length)]
      else qs0
  let qs2 : List Question :=
    match chunk.facts with
    | [] => qs1
    | fact :: _ =>
      if qs1.length < maxQuestions then
        qs1 ++ [factQuestion rd chunk fact (startId + qs1.length)]
      else qs1
  let qs3 : List Question :=
    match chunk.keyTerms with
    | [] => qs2
    | keyTerm :: _ =>
      if qs2.length < maxQuestions then
        qs2 ++ [keyTermQuestion chunk keyTerm (startId + qs2.length)]
      else qs2
  let qs4 : List Question :=
    if decide (chunk.difficulty = Difficulty.hard) && decide (qs3.length < maxQuestions) then
      qs3 ++ [inferenceQuestion rd chunk (startId + qs3.length)]
    else qs3
  qs4 ++ (List.range (maxQuestions - qs4.length)).map (fun j =>
    genericQuestion chunk (startId + (qs4.length + j)))

/-- Embedding of the per-chunk quota of the version-2 generateFromChunks:
the floor of questionCount over the smaller of the chunk count and
questionCount, and at least one. -/
def questionsPerChunk (numChunks questionCount : Nat) : Nat :=
  max 1 (questionCount / min numChunks questionCount)

/-- Embedding of the remainder of the version-2 quota computation. -/
def remainingQuestions (numChunks questionCount : Nat) : Nat :=
  questionCount - questionsPerChunk numChunks questionCount
    * min numChunks questionCount

/-- Number of questions the version-2 main loop asks of the chunk at
position i: the quota, plus one for the first remainder chunks. -/
def chunkTarget (numChunks questionCount i : Nat) : Nat :=
  questionsPerChunk numChunks questionCount
    + (if i < remainingQuestions numChunks questionCount then 1 else 0)

/-- Main loop of the version-2 generateFromChunks: while the total number
generated is below questionCount, each chunk produces its target number of
questions, of which at most the number still missing are kept; the total
generated (before clipping) and the next question identifier are threaded
through and returned. -/
def mainLoopAux (rd : Nat → Nat) (numChunks questionCount : Nat) :
    List AnalyzedChunk → Nat → Nat → Nat → List Question × Nat × Nat
  | [], _, t, qid => ([], t, qid)
  | c :: rest, i, t, qid =>
    if t < questionCount then
      let toGenerate := chunkTarget numChunks questionCount i
      let cqs := generateQuestionsFromChunk rd c qid toGenerate
      let next := mainLoopAux rd numChunks questionCount rest (i + 1)
        (t + cqs.length) (qid + cqs.length)
      (cqs.take (min toGenerate (questionCount - t)) ++ next.1, next.2)
    else ([], t, qid)

/-- Fallback chunk used only to give the random-access read of the top-up
loop a total type; the index is always in range when it is read. -/
def defaultChunk : AnalyzedChunk :=
  { content := "", keyTerms := [], concepts := [], facts := [],
    difficulty := .easy }

/-- Top-up loop of the version-2 generateFromChunks: while fewer than
questionCount questions exist and chunks are available, one more question
is generated from a random chunk; an empty yield would break the loop.
The draw for iteration k reads stream index k. -/
def topUpAux (rc rd : Nat → Nat) (analyzedChunks : List AnalyzedChunk)
    (questionCount : Nat) (qs : List Question) (qid k : Nat) : List Question :=
  if qs.length < questionCount ∧ analyzedChunks ≠ [] then
    let randomChunk := analyzedChunks.getD (rc k % analyzedChunks.length)
      defaultChunk
    match generateQuestionsFromChunk rd randomChunk qid 1 with
    | [] => qs
    | a :: _ => topUpAux rc rd analyzedChunks questionCount (qs ++ [a])
      (qid + 1) (k + 1)
  else qs
termination_by questionCount - qs.length
decreasing_by simp; omega

/-- Generic filler question appended by the version-2 generateFromChunks
when fewer questions than requested exist after the loops. -/
def fillerQuestion (id : Nat) : Question :=
  { id := id
    question := "Based on the document content, what is a key point mentioned?"
    options := ["The document provides valuable information on the topic",
                "The document contains no relevant information",
                "The document is entirely fictional",
                "The document contradicts itself throughout"]
    correctAnswer := 0
    explanation := some "This represents the general informative nature of the document."
    difficulty := some Difficulty.easy }

/-- Final count balancing of the version-2 generateFromChunks: cut to the
first questionCount questions, then append filler questions, numbered from
the current length plus one, until exactly questionCount exist. -/
def balanceToCount (questions : List Question) (questionCount : Nat) :
    List Question :=
  let finalQuestions := questions.take questionCount
  finalQuestions ++ (List.range (questionCount - finalQuestions.length)).map
    (fun j => fillerQuestion (finalQuestions.length + j + 1))

/-- Embedding of the version-2 generateFromChunks: quota-driven main loop,
random-chunk top-up, and final count balancing. -/
def generateFromChunks (rd rc : Nat → Nat)
    (analyzedChunks : List AnalyzedChunk) (questionCount : Nat) :
    List Question :=
  let r := mainLoopAux rd analyzedChunks.length questionCount analyzedChunks
    0 0 1
  let questions := topUpAux rc rd analyzedChunks questionCount r.1 r.2.2 0
  balanceToCount questions questionCount

/-- Embedding of the version-2 generateWithLocalAI: chunking, analysis and
generation. -/
def generateWithLocalAI (rd rc : Nat → Nat) (text : String)
    (questionCount : Nat) : List Question :=
  generateFromChunks rd rc (analyzeChunks (chunkDocument text)) questionCount

end GenV2

/-- Run-collapsing pass of the whitespace replacement in the fallback
generator: each maximal whitespace run becomes a single space.  The boolean
records whether the previous character was whitespace. -/
def collapseWsAux : List Char → Bool → List Char
  | [], _ => []
  | c :: rest, inRun =>
    if c.isWhitespace then
      (if inRun then [] else [' ']) ++ collapseWsAux rest true
    else c :: collapseWsAux rest false

/-- Embedding of the JavaScript replace of whitespace runs by single
spaces. -/
def jsCollapseWs (s : String) : String :=
  String.mk (collapseWsAux s.data false)

/-- Sentence question of generateFallbackQuestions in
src/src/utils/questionGenerator.ts: the trimmed sentence, cut at one
hundred characters, as the correct option before three fixed distractors. -/
def fallbackSentenceQuestion (id : Nat) (sentence : String) : Question :=
  { id := id
    question := "What does the document state about this topic?"
    options := [(if 100 < jsLen sentence then jsTake sentence 100 ++ "..." else sentence),
                "This information is not mentioned in the document",
                "The document contradicts this statement",
                "This is only partially correct according to the document"]
    correctAnswer := 0
    explanation := some "This information is directly stated in the document."
    difficulty := some Difficulty.medium }

/-- Generic filler question of generateFallbackQuestions. -/
def fallbackGenericQuestion (id : Nat) : Question :=
  { id := id
    question := "Based on the document, what is the main focus of the content?"
    options := ["The document provides comprehensive information on the topic",
                "The document only covers basic introductory material",
                "The document focuses on unrelated topics",
                "The document contains contradictory information"]
    correctAnswer := 0
    explanation := some "The document is designed to provide informative content on its subject matter."
    difficulty := some Difficulty.easy }

/-- Embedding of generateFallbackQuestions in
src/src/utils/questionGenerator.ts: one question per usable sentence up to
the requested count, generic filler questions for the remaining slots, and
a final cut to the requested count. -/
def generateFallbackQuestions (text : String) (questionCount : Nat) :
    List Question :=
  let cleanText := jsTrim (jsCollapseWs text)
  let sentences := (splitSentences cleanText).filter
    (fun s => 20 < jsLen (jsTrim s))
  let questions := ((sentences.take questionCount).enum).map (fun p =>
    fallbackSentenceQuestion (p.1 + 1) (jsTrim p.2))
  let padded := questions ++ (List.range (questionCount - questions.length)).map
    (fun j => fallbackGenericQuestion (questions.length + j + 1))
  padded.take questionCount

/-- Branching of generateQuestions in src/src/utils/questionGenerator.ts on
the question list obtained from the generator class: a non-empty list is
returned as is, an empty list is replaced by the fallback generation.  The
try branch of the source cannot throw in this model, so the catch branch,
which also returns the fallback generation, is unreachable. -/
def generateQuestionsWith (aiQuestions : List Question) (text : String)
    (questionCount : Nat) : List Question :=
  if 0 < aiQuestions.length then aiQuestions
  else generateFallbackQuestions text questionCount

/-- Embedding of generateQuestionsWithAI: the generator class constructed
with no arguments uses the local provider, hence the local pipeline.  The
version-2 class is used, matching the repository changelog entry that the
exact question count was fixed in release 1.2.0. -/
def generateQuestionsWithAI (rd rc : Nat → Nat) (text : String)
    (questionCount : Nat) : List Question :=
  GenV2.generateWithLocalAI rd rc text questionCount

/-- Embedding of generateQuestions in src/src/utils/questionGenerator.ts,
the generation facade. -/
def generateQuestions (rd rc : Nat → Nat) (text : String)
    (questionCount : Nat) : List Question :=
  generateQuestionsWith (generateQuestionsWithAI rd rc text questionCount)
    text questionCount

/-- Provider configurations recognised by the generator class. -/
inductive Provider
  | openai
  | anthropic
  | gemini
  | local
deriving DecidableEq

/-- Model of a successfully JSON-parsed remote response object, with its
optional questions field. -/
structure ParsedResponse where
  questions : Option (List Question)

/-- Environment model of the remote backend: the outcome of the provider
call (in this repository every call throws a not-implemented error), and a
JSON-parse oracle giving none when JSON.parse would throw. -/
structure RemoteBehavior where
  call : Except String String
  parseJSON : String → Option ParsedResponse

namespace GenV2

/-- Embedding of the version-2 parseAIResponse: a parse failure is caught
and yields the empty list, and a missing questions field also yields the
empty list. -/
def parseAIResponse (parseJSON : String → Option ParsedResponse)
    (response : String) : List Question :=
  match parseJSON response with
  | none => []
  | some parsed => parsed.questions.getD []

/-- Try block of the version-2 generateWithAI: the provider switch, whose
three remote cases perform the call and whose default case throws, followed
by response parsing. -/
def generateWithAITryBlock (rb : RemoteBehavior) (provider : Provider) :
    Except String (List Question) :=
  match (match provider with
    | .openai => rb.call
    | .anthropic => rb.call
    | .gemini => rb.call
    | .local => Except.error "Unsupported AI provider") with
  | .error e => .error e
  | .ok response => .ok (parseAIResponse rb.parseJSON response)

/-- Embedding of the version-2 generateWithAI: any error thrown in the try
block is caught and answered with the local pipeline. -/
def generateWithAI (rb : RemoteBehavior) (provider : Provider)
    (rd rc : Nat → Nat) (text : String) (questionCount : Nat) :
    List Question :=
  match generateWithAITryBlock rb provider with
  | .error _ => generateWithLocalAI rd rc text questionCount
  | .ok qs => qs

/-- Embedding of the version-2 class method generateQuestions: remote
generation when an API key is present and the provider is not local, the
local pipeline otherwise.  The constructor stores a falsy key argument as
null, so a stored key is modelled as a present option value. -/
def classGenerateQuestions (apiKey : Option String) (provider : Provider)
    (rb : RemoteBehavior) (rd rc : Nat → Nat) (text : String)
    (questionCount : Nat) : List Question :=
  if apiKey.isSome && !(provider == Provider.local) then
    generateWithAI rb provider rd rc text questionCount
  else generateWithLocalAI rd rc text questionCount

end GenV2

/-- Page states of the application in src/src/App.tsx. -/
inductive QuizState
  | upload
  | quiz
  | results
deriving DecidableEq

/-- Quiz presentation modes; the source values are immediate and end. -/
inductive QuizMode
  | immediate
  | end'
deriving DecidableEq

/-- Embedding of the QuizSettings data supplied before generation. -/
structure QuizSettings where
  questionCount : Nat
  mode : QuizMode
deriving DecidableEq

/-- State of the App component in src/src/App.tsx: page state, question
list, current question index, recorded answers (a map from question index
to chosen option index), processing flag, error message and settings. -/
structure AppState where
  quizState : QuizState
  questions : List Question
  currentQuestionIndex : Nat
  userAnswers : Nat → Option Nat
  isProcessing : Bool
  error : Option String
  quizSettings : QuizSettings

/-- User-visible failures of the upload handler in src/src/App.tsx:
the too-short-document error thrown before generation, and the
no-questions error thrown on an empty generation result. -/
inductive UploadError
  | insufficientContent
  | noQuestions
deriving DecidableEq

/-- Core of handleFileUpload in src/src/App.tsx, from the extracted text
on: the minimum-length check on the trimmed text, generation, the
empty-result check, and the cut to exactly the requested count. -/
def handleFileUploadResult (rd rc : Nat → Nat) (text : String)
    (settings : QuizSettings) : Except UploadError (List Question) :=
  if jsLen (jsTrim text) < 100 then .error .insufficientContent
  else
    let generatedQuestions := generateQuestions rd rc text
      settings.questionCount
    if generatedQuestions.length = 0 then .error .noQuestions
    else .ok (generatedQuestions.take settings.questionCount)

/-- Embedding of handleAnswer in src/src/App.tsx, with the zero or
half-second timeout elapsed: the answer is recorded under the current
question index; then either the index advances by one, or, when the
current question is the last, the page state becomes results. -/
def handleAnswer (s : AppState) (answerIndex : Nat) : AppState :=
  let s1 := { s with userAnswers := fun k =>
    if k = s.currentQuestionIndex then some answerIndex
    else s.userAnswers k }
  if s.currentQuestionIndex < s.questions.length - 1 then
    { s1 with currentQuestionIndex := s.currentQuestionIndex + 1 }
  else
    { s1 with quizState := .results }

/-- Embedding of restartQuiz in src/src/App.tsx. -/
def restartQuiz (s : AppState) : AppState :=
  { s with quizState := .upload
           questions := []
           currentQuestionIndex := 0
           userAnswers := fun _ => none
           error := none
           quizSettings := { questionCount := 15, mode := .immediate } }

/-- Local state of the mode-aware QuestionDisplay component
(src/unnamed/part_004): feedback visibility, the proceed gate, and the
locally recorded answer. -/
structure DisplayState where
  showFeedback : Bool
  canProceed : Bool
  currentAnswer : Option Nat
deriving DecidableEq

/-- Reset of the QuestionDisplay state when a new question arrives. -/
def displayReset : DisplayState :=
  { showFeedback := false, canProceed := false, currentAnswer := none }

/-- Embedding of handleAnswerClick in the mode-aware QuestionDisplay: a
repeated click is ignored; the first click records the answer locally; in
immediate mode it only shows feedback, while in end mode it calls the
onAnswer callback, which is handleAnswer of the App. -/
def handleAnswerClick (mode : QuizMode) (d : DisplayState) (s : AppState)
    (answerIndex : Nat) : DisplayState × AppState :=
  if d.currentAnswer.isSome then (d, s)
  else
    let d1 := { d with currentAnswer := some answerIndex }
    match mode with
    | .immediate => ({ d1 with showFeedback := true }, s)
    | .end' => (d1, handleAnswer s answerIndex)

/-- Embedding of the one-second feedback timer of the mode-aware
QuestionDisplay, which enables the proceed button in immediate mode. -/
def feedbackTimerFires (d : DisplayState) : DisplayState :=
  { d with canProceed := true }

/-- Embedding of handleNext in the mode-aware QuestionDisplay: the explicit
proceed confirmation, which forwards the locally recorded answer to the
onAnswer callback of the App. -/
def handleNext (d : DisplayState) (s : AppState) : DisplayState × AppState :=
  match d.currentAnswer with
  | some a => (d, handleAnswer s a)
  | none => (d, s)

lemma balanceToCount_length (qs : List Question) (qc : Nat) :
    (GenV2.balanceToCount qs qc).length = qc := by
  simp [GenV2.balanceToCount]

/-- C4: the difficulty classifier counts the total matches of the three
indicator-word families and returns hard exactly when the total is at least
three, medium exactly when it is one or two, and easy exactly when it is
zero. -/
theorem assessDifficulty_threshold_spec (text : String) :
    (assessDifficulty text = .hard ↔ 3 ≤ complexityScore text)
    ∧ (assessDifficulty text = .medium ↔
        (1 ≤ complexityScore text ∧ complexityScore text ≤ 2))
    ∧ (assessDifficulty text = .easy ↔ complexityScore text = 0) := by
  unfold assessDifficulty
  split_ifs with h1 h2 <;> refine ⟨?_, ?_, ?_⟩ <;> simp_all <;> omega

/-- C2: the count balancing step returns exactly the requested number of
items: it truncates when more were synthesized and pads with the fixed
generic filler item of difficulty easy when fewer exist. -/
theorem balance_pads_and_truncates_to_count (qs : List Question) (qc : Nat) :
    (GenV2.balanceToCount qs qc).length = qc
    ∧ (qc ≤ qs.length → GenV2.balanceToCount qs qc = qs.take qc)
    ∧ (qs.length < qc → GenV2.balanceToCount qs qc =
        qs ++ (List.range (qc - qs.length)).map
          (fun j => GenV2.fillerQuestion (qs.length + j + 1)))
    ∧ (∀ i, (GenV2.fillerQuestion i).question =
        "Based on the document content, what is a key point mentioned?"
        ∧ (GenV2.fillerQuestion i).difficulty = some .easy) := by
  refine ⟨balanceToCount_length qs qc, ?_, ?_, ?_⟩
  · intro h
    simp [GenV2.balanceToCount, Nat.sub_eq_zero_of_le, List.length_take,
      Nat.min_eq_left h]
  · intro h
    simp [GenV2.balanceToCount, List.take_of_length_le (Nat.le_of_lt h)]
  · intro i
    exact ⟨rfl, rfl⟩

theorem balance_pads_and_truncates_witness :
    ((2 : Nat) ≤ [GenV2.fillerQuestion 1, GenV2.fillerQuestion 2,
        GenV2.fillerQuestion 3].length
      ∧ GenV2.balanceToCount [GenV2.fillerQuestion 1, GenV2.fillerQuestion 2,
          GenV2.fillerQuestion 3] 2 =
        [GenV2.fillerQuestion 1, GenV2.fillerQuestion 2,
          GenV2.fillerQuestion 3].take 2)
    ∧ (([GenV2.fillerQuestion 1] : List Question).length < 3
      ∧ GenV2.balanceToCount [GenV2.fillerQuestion 1] 3 =
        [GenV2.fillerQuestion 1] ++
          (List.range (3 - ([GenV2.fillerQuestion 1] : List Question).length)).map
            (fun j => GenV2.fillerQuestion
              (([GenV2.fillerQuestion 1] : List Question).length + j + 1))) :=
  ⟨⟨by decide,
    (balance_pads_and_truncates_to_count [GenV2.fillerQuestion 1,
      GenV2.fillerQuestion 2, GenV2.fillerQuestion 3] 2).2.1 (by decide)⟩,
   ⟨by decide,
    (balance_pads_and_truncates_to_count [GenV2.fillerQuestion 1] 3).2.2.1
      (by decide)⟩⟩

/-- C7: in end mode, an answer event in the quiz state stores the answer
under the current question index, advances the index by exactly one while
it is below the last index, never moves it past the last index, and
transitions to results exactly when the last question is answered. -/
theorem end_mode_answer_transition_spec (s : AppState) (a : Nat)
    (hq : s.quizState = .quiz) (_hm : s.quizSettings.mode = .end') :
    (handleAnswer s a).userAnswers s.currentQuestionIndex = some a
    ∧ (∀ k, k ≠ s.currentQuestionIndex →
        (handleAnswer s a).userAnswers k = s.userAnswers k)
    ∧ (s.currentQuestionIndex < s.questions.length - 1 →
        (handleAnswer s a).currentQuestionIndex = s.currentQuestionIndex + 1
        ∧ (handleAnswer s a).quizState = .quiz)
    ∧ (s.currentQuestionIndex ≤ s.questions.length - 1 →
        (handleAnswer s a).currentQuestionIndex ≤ s.questions.length - 1)
    ∧ ((handleAnswer s a).quizState = .results ↔
        ¬ s.currentQuestionIndex < s.questions.length - 1) := by
  unfold handleAnswer
  split_ifs with h
  · exact ⟨by simp, fun k hk => by simp [hk],
      fun _ => ⟨by simp, by simp [hq]⟩,
      fun _ => by simp; omega,
      by simp [hq]; omega⟩
  · exact ⟨by simp, fun k hk => by simp [hk],
      fun hlt => absurd hlt h,
      fun hle => by simpa using hle,
      by simp [h]⟩

/-- C8: in immediate mode an answer click leaves the App state untouched
until the explicit proceed confirmation forwards the recorded answer, while
in end mode the click performs the answer transition at once. -/
theorem immediate_mode_defers_advance (mode : QuizMode) (d : DisplayState)
    (s : AppState) (i : Nat) (h0 : d.currentAnswer = none) :
    (mode = .immediate →
       (handleAnswerClick mode d s i).2 = s
       ∧ (handleAnswerClick mode d s i).1.currentAnswer = some i
       ∧ (handleNext (handleAnswerClick mode d s i).1 s).2 = handleAnswer s i)
    ∧ (mode = .end' →
       (handleAnswerClick mode d s i).2 = handleAnswer s i) := by
  cases mode <;> simp [handleAnswerClick, handleNext, h0]

set_option maxHeartbeats 1000000 in
lemma forall_mem_generateQuestionsFromChunk_v2 (rd : Nat → Nat)
    (chunk : AnalyzedChunk) (startId maxQuestions : Nat) :
    ∀ q ∈ GenV2.generateQuestionsFromChunk rd chunk startId maxQuestions,
      q.options.length = 4 ∧ q.correctAnswer = 0 := by
  obtain ⟨content, keyTerms, concepts, facts, difficulty⟩ := chunk
  unfold GenV2.generateQuestionsFromChunk
  rcases concepts with _ | ⟨c0, cr⟩ <;>
  rcases facts with _ | ⟨f0, fr⟩ <;>
  rcases keyTerms with _ | ⟨k0, kr⟩ <;>
  dsimp only [List.length_nil, List.length_cons, List.length_append] <;>
  split_ifs <;>
  simp [List.forall_mem_append, GenV2.conceptQuestion, GenV2.factQuestion,
    GenV2.keyTermQuestion, GenV2.inferenceQuestion, GenV2.genericQuestion,
    List.mem_map, List.mem_range]

set_option maxHeartbeats 1000000 in
lemma forall_mem_generateQuestionsFromChunk_v1 (rd : Nat → Nat)
    (chunk : AnalyzedChunk) (startId : Nat) :
    ∀ q ∈ GenV1.generateQuestionsFromChunk rd chunk startId,
      q.options.length = 4 ∧ q.correctAnswer = 0 := by
  obtain ⟨content, keyTerms, concepts, facts, difficulty⟩ := chunk
  unfold GenV1.generateQuestionsFromChunk
  rcases concepts with _ | ⟨c0, cr⟩ <;>
  rcases facts with _ | ⟨f0, fr⟩ <;>
  dsimp only [List.length_nil, List.length_cons, List.length_append] <;>
  split_ifs <;>
  simp [List.forall_mem_append, GenV1.conceptQuestion, GenV1.factQuestion,
    GenV1.inferenceQuestion]

lemma forall_mem_generateFallbackQuestions (text : String)
    (questionCount : Nat) :
    ∀ q ∈ generateFallbackQuestions text questionCount,
      q.options.length = 4 ∧ q.correctAnswer = 0 := by
  intro q hm
  unfold generateFallbackQuestions at hm
  have hm' := List.take_subset _ _ hm
  rcases List.mem_append.1 hm' with h | h
  · obtain ⟨p, _, rfl⟩ := List.mem_map.1 h
    exact ⟨rfl, rfl⟩
  · obtain ⟨j, _, rfl⟩ := List.mem_map.1 h
    exact ⟨rfl, rfl⟩

/-- C5: every question produced by the synthesizer of either generator
version, and by the fallback generator, has exactly four options and
correctAnswer zero (the correct answer is always placed first). -/
theorem synthesized_questions_options_invariant (rd : Nat → Nat)
    (chunk : AnalyzedChunk) (startId maxQuestions questionCount : Nat)
    (text : String) (q : Question) :
    (q ∈ GenV2.generateQuestionsFromChunk rd chunk startId maxQuestions →
      q.options.length = 4 ∧ q.correctAnswer = 0)
    ∧ (q ∈ GenV1.generateQuestionsFromChunk rd chunk startId →
      q.options.length = 4 ∧ q.correctAnswer = 0)
    ∧ (q ∈ generateFallbackQuestions text questionCount →
      q.options.length = 4 ∧ q.correctAnswer = 0) :=
  ⟨forall_mem_generateQuestionsFromChunk_v2 rd chunk startId maxQuestions q,
   forall_mem_generateQuestionsFromChunk_v1 rd chunk startId q,
   forall_mem_generateFallbackQuestions text questionCount q⟩

theorem synthesized_questions_options_invariant_witness :
    ((GenV2.genericQuestion GenV2.defaultChunk 1).options.length = 4
      ∧ (GenV2.genericQuestion GenV2.defaultChunk 1).correctAnswer = 0)
    ∧ ((GenV1.factQuestion (fun _ => 0) GenV2.defaultChunk "f" 1).options.length = 4
      ∧ (GenV1.factQuestion (fun _ => 0) GenV2.defaultChunk "f" 1).correctAnswer = 0)
    ∧ ((fallbackGenericQuestion 1).options.length = 4
      ∧ (fallbackGenericQuestion 1).correctAnswer = 0) :=
  ⟨(synthesized_questions_options_invariant (fun _ => 0) GenV2.defaultChunk 1 1
      1 "" (GenV2.genericQuestion GenV2.defaultChunk 1)).1 (by decide),
   (synthesized_questions_options_invariant (fun _ => 0)
      { content := "", keyTerms := [], concepts := [], facts := ["f"],
        difficulty := .easy } 1 1 1 ""
      (GenV1.factQuestion (fun _ => 0) GenV2.defaultChunk "f" 1)).2.1
      (by decide),
   (synthesized_questions_options_invariant (fun _ => 0) GenV2.defaultChunk 1 1
      1 "" (fallbackGenericQuestion 1)).2.2 (by decide)⟩

lemma mem_take_filter_difficulty (qs : List Question) (d : Difficulty)
    (n m : Nat) (q : Question)
    (h : q ∈ ((qs.filter (fun q => decide (q.difficulty = some d))).take n).take m) :
    q.difficulty = some d := by
  have h1 := List.take_subset _ _ h
  have h2 := List.take_subset _ _ h1
  simpa using (List.mem_filter.1 h2).2

/-- C10: the question sequence returned by the version-1 local pipeline is
grouped by difficulty in the fixed bucket order: all easy questions first,
then all medium, then all hard, never interleaved, for every input text and
requested count. -/
theorem local_pipeline_output_grouped_by_difficulty (rd : Nat → Nat)
    (text : String) (questionCount : Nat) :
    ∃ e m h : List Question,
      GenV1.generateWithLocalAI rd text questionCount = e ++ m ++ h
      ∧ (∀ q ∈ e, q.difficulty = some .easy)
      ∧ (∀ q ∈ m, q.difficulty = some .medium)
      ∧ (∀ q ∈ h, q.difficulty = some .hard) := by
  unfold GenV1.generateWithLocalAI GenV1.generateFromChunks
    GenV1.balanceQuestionDifficulty
  refine ⟨_, _, _,
    by rw [List.take_append_eq_append_take, List.take_append_eq_append_take],
    ?_, ?_, ?_⟩
  · intro q hq
    exact mem_take_filter_difficulty _ .easy _ _ q hq
  · intro q hq
    exact mem_take_filter_difficulty _ .medium _ _ q hq
  · intro q hq
    exact mem_take_filter_difficulty _ .hard _ _ q hq

lemma generateFromChunks_length_v2 (rd rc : Nat → Nat)
    (analyzedChunks : List AnalyzedChunk) (questionCount : Nat) :
    (GenV2.generateFromChunks rd rc analyzedChunks questionCount).length =
      questionCount := by
  simp [GenV2.generateFromChunks, balanceToCount_length]

lemma generateWithLocalAI_length_v2 (rd rc : Nat → Nat) (text : String)
    (questionCount : Nat) :
    (GenV2.generateWithLocalAI rd rc text questionCount).length =
      questionCount := by
  unfold GenV2.generateWithLocalAI
  exact generateFromChunks_length_v2 rd rc _ questionCount

lemma generateQuestions_length (rd rc : Nat → Nat) (text : String)
    (questionCount : Nat) :
    (generateQuestions rd rc text questionCount).length = questionCount := by
  unfold generateQuestions generateQuestionsWith generateQuestionsWithAI
  have h := generateWithLocalAI_length_v2 rd rc text questionCount
  split_ifs with h0
  · exact h
  · have hqc : questionCount = 0 := by omega
    subst hqc
    simp [generateFallbackQuestions]

/-- C1: for every question count in the supported range and every text of
at least one hundred trimmed characters containing at least one usable
sentence, the generation facade returns exactly questionCount questions. -/
theorem generate_returns_exact_count (rd rc : Nat → Nat) (text : String)
    (questionCount : Nat) (_h5 : 5 ≤ questionCount)
    (_h30 : questionCount ≤ 30) (_hlen : 100 ≤ jsLen (jsTrim text))
    (_hsent : (splitSentences text).filter (fun s => 20 < jsLen (jsTrim s)) ≠ []) :
    (generateQuestions rd rc text questionCount).length = questionCount :=
  generateQuestions_length rd rc text questionCount

theorem generate_returns_exact_count_witness :
    (5 : Nat) ≤ 5 ∧ (5 : Nat) ≤ 30
    ∧ 100 ≤ jsLen (jsTrim "the cat sat on the mat and the dog sat on the log while the bird is perched on the branch near the quiet pond today")
    ∧ ((splitSentences "the cat sat on the mat and the dog sat on the log while the bird is perched on the branch near the quiet pond today").filter
        (fun s => 20 < jsLen (jsTrim s)) ≠ [])
    ∧ (generateQuestions (fun _ => 0) (fun _ => 0)
        "the cat sat on the mat and the dog sat on the log while the bird is perched on the branch near the quiet pond today"
        5).length = 5 :=
  ⟨by decide, by decide, by decide, by decide,
   generate_returns_exact_count (fun _ => 0) (fun _ => 0) _ 5 (by decide)
     (by decide) (by decide) (by decide)⟩

/-- C6: the upload handler fails with the insufficient-content error on a
text of exactly ninety-nine trimmed characters, and does not fail with that
error on a text of exactly one hundred trimmed characters with at least one
usable sentence. -/
theorem upload_insufficient_content_boundary (rd rc : Nat → Nat)
    (text : String) (settings : QuizSettings) :
    (jsLen (jsTrim text) = 99 →
      handleFileUploadResult rd rc text settings =
        .error .insufficientContent)
    ∧ (jsLen (jsTrim text) = 100 → 1 ≤ settings.questionCount →
      (splitSentences text).filter (fun s => 20 < jsLen (jsTrim s)) ≠ [] →
      handleFileUploadResult rd rc text settings ≠
        .error .insufficientContent) := by
  constructor
  · intro h99
    unfold handleFileUploadResult
    rw [h99]
    simp
  · intro h100 hqc _hsent
    unfold handleFileUploadResult
    rw [h100]
    have hg := generateQuestions_length rd rc text settings.questionCount
    simp only [Nat.lt_irrefl, if_false]
    split_ifs with h0
    · omega
    · simp

theorem upload_insufficient_content_boundary_witness :
    jsLen (jsTrim "the quick brown fox jumps over the lazy dog while rain falls on the quiet meadow near the old barns") = 99
    ∧ handleFileUploadResult (fun _ => 0) (fun _ => 0)
        "the quick brown fox jumps over the lazy dog while rain falls on the quiet meadow near the old barns"
        { questionCount := 5, mode := .immediate } = .error .insufficientContent
    ∧ jsLen (jsTrim "the quick brown fox jumps over the lazy dog while rain falls on the quiet meadow near the old barnss") = 100
    ∧ handleFileUploadResult (fun _ => 0) (fun _ => 0)
        "the quick brown fox jumps over the lazy dog while rain falls on the quiet meadow near the old barnss"
        { questionCount := 5, mode := .immediate } ≠ .error .insufficientContent :=
  ⟨by decide,
   (upload_insufficient_content_boundary (fun _ => 0) (fun _ => 0) _
     { questionCount := 5, mode := .immediate }).1 (by decide),
   by decide,
   (upload_insufficient_content_boundary (fun _ => 0) (fun _ => 0) _
     { questionCount := 5, mode := .immediate }).2 (by decide) (by decide)
     (by decide)⟩

set_option maxHeartbeats 1000000 in
lemma generateQuestionsFromChunk_length_v2 (rd : Nat → Nat)
    (chunk : AnalyzedChunk) (startId maxQuestions : Nat) :
    (GenV2.generateQuestionsFromChunk rd chunk startId maxQuestions).length =
      maxQuestions := by
  obtain ⟨content, keyTerms, concepts, facts, difficulty⟩ := chunk
  unfold GenV2.generateQuestionsFromChunk
  rcases concepts with _ | ⟨c0, cr⟩ <;>
  rcases facts with _ | ⟨f0, fr⟩ <;>
  rcases keyTerms with _ | ⟨k0, kr⟩ <;>
  dsimp only [List.length_nil, List.length_cons, List.length_append] <;>
  split_ifs <;>
  simp_all [List.length_append] <;>
  omega

/-- Sum of the per-chunk targets of the version-2 main loop over m chunk
positions starting at position i. -/
def GenV2.targetSum (numChunks questionCount i : Nat) : Nat → Nat
  | 0 => 0
  | m + 1 => GenV2.chunkTarget numChunks questionCount i
      + GenV2.targetSum numChunks questionCount (i + 1) m

lemma targetSum_formula (n qc : Nat) :
    ∀ m i, GenV2.targetSum n qc i m =
      GenV2.questionsPerChunk n qc * m
        + min (GenV2.remainingQuestions n qc - i) m := by
  intro m
  induction m with
  | zero => intro i; simp [GenV2.targetSum]
  | succ m ih =>
    intro i
    rw [GenV2.targetSum, ih (i + 1), Nat.mul_succ]
    unfold GenV2.chunkTarget
    split_ifs with h <;> omega

lemma mainLoopAux_length (rd : Nat → Nat) (n qc : Nat) :
    ∀ (cs : List AnalyzedChunk) (i t qid : Nat),
      ((GenV2.mainLoopAux rd n qc cs i t qid).1).length =
        min (qc - t) (GenV2.targetSum n qc i cs.length) := by
  intro cs
  induction cs with
  | nil => intro i t qid; simp [GenV2.mainLoopAux, GenV2.targetSum]
  | cons c rest ih =>
    intro i t qid
    rw [GenV2.mainLoopAux]
    split_ifs with h
    · have hlen := generateQuestionsFromChunk_length_v2 rd c qid
        (GenV2.chunkTarget n qc i)
      simp only [List.length_append, List.length_take, hlen, ih]
      rw [List.length_cons, GenV2.targetSum]
      omega
    · simp only [List.length_nil, List.length_cons]
      rw [GenV2.targetSum]
      omega

lemma targetSum_ge (n qc : Nat) (hn : 1 ≤ n) (_hqc : 1 ≤ qc) :
    qc ≤ GenV2.targetSum n qc 0 n := by
  rw [targetSum_formula, Nat.sub_zero]
  rcases Nat.lt_or_ge n qc with hlt | hge
  · have hn0 : 0 < n := hn
    have ha : GenV2.questionsPerChunk n qc = qc / n := by
      unfold GenV2.questionsPerChunk
      rw [Nat.min_eq_left (Nat.le_of_lt hlt)]
      exact Nat.max_eq_right ((Nat.one_le_div_iff hn0).2 (Nat.le_of_lt hlt))
    have hr : GenV2.remainingQuestions n qc = qc - qc / n * n := by
      unfold GenV2.remainingQuestions
      rw [ha, Nat.min_eq_left (Nat.le_of_lt hlt)]
    have hdm := Nat.div_add_mod qc n
    rw [Nat.mul_comm n (qc / n)] at hdm
    have hml : qc % n < n := Nat.mod_lt qc hn0
    rw [ha, hr]
    omega
  · have h1 : 1 ≤ GenV2.questionsPerChunk n qc := Nat.le_max_left 1 _
    have h2 : n ≤ GenV2.questionsPerChunk n qc * n := by
      calc n = 1 * n := (Nat.one_mul n).symm
        _ ≤ GenV2.questionsPerChunk n qc * n := Nat.mul_le_mul_right n h1
    omega

/-- C3: for at least one chunk and a positive requested count, the
version-2 synthesizer gives each chunk the target quota of the floor of
requestedCount over the smaller of the chunk count and requestedCount, one
extra item for the first remainder chunks, and the main loop stops as soon
as requestedCount items exist, yielding exactly requestedCount items. -/
theorem synthesizer_quota_distribution (rd : Nat → Nat)
    (analyzedChunks : List AnalyzedChunk) (questionCount : Nat)
    (hn : 1 ≤ analyzedChunks.length) (hqc : 1 ≤ questionCount) :
    GenV2.questionsPerChunk analyzedChunks.length questionCount =
      questionCount / min analyzedChunks.length questionCount
    ∧ (∀ i, GenV2.chunkTarget analyzedChunks.length questionCount i =
        questionCount / min analyzedChunks.length questionCount
          + (if i < GenV2.remainingQuestions analyzedChunks.length
              questionCount then 1 else 0))
    ∧ ((GenV2.mainLoopAux rd analyzedChunks.length questionCount
        analyzedChunks 0 0 1).1).length = questionCount
    ∧ (∀ (cs : List AnalyzedChunk) (i t qid : Nat), questionCount ≤ t →
        (GenV2.mainLoopAux rd analyzedChunks.length questionCount cs i t
          qid).1 = []) := by
  have hmin : 0 < min analyzedChunks.length questionCount := by
    simp only [Nat.lt_min]
    omega
  have hq1 : GenV2.questionsPerChunk analyzedChunks.length questionCount =
      questionCount / min analyzedChunks.length questionCount := by
    unfold GenV2.questionsPerChunk
    exact Nat.max_eq_right ((Nat.one_le_div_iff hmin).2
      (Nat.min_le_right _ _))
  refine ⟨hq1, ?_, ?_, ?_⟩
  · intro i
    unfold GenV2.chunkTarget
    rw [hq1]
  · rw [mainLoopAux_length rd _ _ analyzedChunks 0 0 1, Nat.sub_zero]
    have := targetSum_ge analyzedChunks.length questionCount hn hqc
    omega
  · intro cs i t qid h
    cases cs with
    | nil => rw [GenV2.mainLoopAux]
    | cons c rest =>
      rw [GenV2.mainLoopAux, if_neg (by omega)]

theorem synthesizer_quota_distribution_witness :
    (1 : Nat) ≤ [GenV2.defaultChunk].length ∧ (1 : Nat) ≤ 5
    ∧ ((GenV2.mainLoopAux (fun _ => 0) [GenV2.defaultChunk].length 5
        [GenV2.defaultChunk] 0 0 1).1).length = 5
    ∧ GenV2.questionsPerChunk [GenV2.defaultChunk].length 5 =
        5 / min [GenV2.defaultChunk].length 5 :=
  ⟨by decide, by decide,
   (synthesizer_quota_distribution (fun _ => 0) [GenV2.defaultChunk] 5
     (by decide) (by decide)).2.2.1,
   (synthesizer_quota_distribution (fun _ => 0) [GenV2.defaultChunk] 5
     (by decide) (by decide)).1⟩

/-- C9 counterexample: with a configured remote provider whose call
succeeds but whose response is unparseable JSON, the generator class
returns the empty list instead of the output of the local pipeline, so the
remote failure is not recovered by running the local pipeline there; the
local pipeline on the same input yields a non-empty list. -/
theorem remote_parse_failure_bypasses_local_pipeline :
    GenV2.classGenerateQuestions (some "key") .openai
      { call := .ok "not json", parseJSON := fun _ => none }
      (fun _ => 0) (fun _ => 0)
      "the cat sat on the mat and the dog sat on the log while the bird is perched on the branch near the quiet pond today"
      5 = []
    ∧ GenV2.generateWithLocalAI (fun _ => 0) (fun _ => 0)
      "the cat sat on the mat and the dog sat on the log while the bird is perched on the branch near the quiet pond today"
      5 ≠ [] := by
  constructor
  · decide
  · have h := generateWithLocalAI_length_v2 (fun _ => 0) (fun _ => 0)
      "the cat sat on the mat and the dog sat on the log while the bird is perched on the branch near the quiet pond today"
      5
    intro hfalse
    rw [hfalse] at h
    simp at h

/-- C9 as amended: every error thrown in the remote try block (network
error or unsupported provider) is caught and recovered by running the local
pipeline; a response that is unparseable or lacks the questions field is
converted to the empty list without running the local pipeline there, and
the top-level facade replaces an empty list by the fallback generation; no
remote failure surfaces to the caller as an error. -/
theorem remote_failure_recovery_spec (rb : RemoteBehavior)
    (provider : Provider) (rd rc : Nat → Nat) (text response : String)
    (questionCount : Nat) :
    (∀ e, GenV2.generateWithAITryBlock rb provider = .error e →
      GenV2.generateWithAI rb provider rd rc text questionCount =
        GenV2.generateWithLocalAI rd rc text questionCount)
    ∧ (provider ≠ .local → rb.call = .ok response →
        rb.parseJSON response = none →
        GenV2.generateWithAI rb provider rd rc text questionCount = [])
    ∧ (provider ≠ .local → rb.call = .ok response →
        rb.parseJSON response = some { questions := none } →
        GenV2.generateWithAI rb provider rd rc text questionCount = [])
    ∧ generateQuestionsWith [] text questionCount =
        generateFallbackQuestions text questionCount := by
  refine ⟨?_, ?_, ?_, ?_⟩
  · intro e he
    unfold GenV2.generateWithAI
    rw [he]
  · intro hp hc hj
    cases provider <;>
      simp_all [GenV2.generateWithAI, GenV2.generateWithAITryBlock,
        GenV2.parseAIResponse]
  · intro hp hc hj
    cases provider <;>
      simp_all [GenV2.generateWithAI, GenV2.generateWithAITryBlock,
        GenV2.parseAIResponse, Option.getD]
  · simp [generateQuestionsWith]

theorem remote_failure_recovery_witness :
    GenV2.generateWithAI
      { call := .error "network failure", parseJSON := fun _ => none }
      .openai (fun _ => 0) (fun _ => 0) "doc" 5 =
      GenV2.generateWithLocalAI (fun _ => 0) (fun _ => 0) "doc" 5
    ∧ GenV2.generateWithAI
      { call := .ok "not json", parseJSON := fun _ => none }
      .openai (fun _ => 0) (fun _ => 0) "doc" 5 = [] :=
  ⟨(remote_failure_recovery_spec
      { call := .error "network failure", parseJSON := fun _ => none }
      .openai (fun _ => 0) (fun _ => 0) "doc" "r" 5).1 "network failure" rfl,
   (remote_failure_recovery_spec
      { call := .ok "not json", parseJSON := fun _ => none }
      .openai (fun _ => 0) (fun _ => 0) "doc" "not json" 5).2.1
      (by decide) rfl rfl⟩

/-- Concrete two-question session state in end mode, used to instantiate
the session theorems. -/
def sampleQuizAppState : AppState :=
  { quizState := .quiz
    questions := [fallbackGenericQuestion 1, fallbackGenericQuestion 2]
    currentQuestionIndex := 0
    userAnswers := fun _ => none
    isProcessing := false
    error := none
    quizSettings := { questionCount := 2, mode := .end' } }

theorem end_mode_answer_transition_witness :
    (handleAnswer sampleQuizAppState 1).userAnswers
      sampleQuizAppState.currentQuestionIndex = some 1
    ∧ ((handleAnswer sampleQuizAppState 1).quizState = .results ↔
        ¬ sampleQuizAppState.currentQuestionIndex <
          sampleQuizAppState.questions.length - 1) :=
  ⟨(end_mode_answer_transition_spec sampleQuizAppState 1 rfl rfl).1,
   (end_mode_answer_transition_spec sampleQuizAppState 1 rfl rfl).2.2.2.2⟩

theorem immediate_mode_defers_advance_witness :
    (handleAnswerClick .immediate displayReset sampleQuizAppState 1).2 =
      sampleQuizAppState
    ∧ (handleAnswerClick .end' displayReset sampleQuizAppState 1).2 =
      handleAnswer sampleQuizAppState 1 :=
  ⟨((immediate_mode_defers_advance .immediate displayReset sampleQuizAppState
      1 rfl).1 rfl).1,
   (immediate_mode_defers_advance .end' displayReset sampleQuizAppState
      1 rfl).2 rfl⟩
